import Mathlib

/-!
Verification of the SPI driver and the count-down timer driver of an
STM32F4 hardware-abstraction layer.  The register-level behaviour of the
peripherals is embedded shallowly: each driver operation becomes a pure
function on an explicit record of the observable register state, and
machine integers are `Nat` with an explicit `% 2^32` where the source's
`u32` arithmetic can wrap.
-/

set_option maxRecDepth 4096

/-- Result type of the non-blocking (`nb`) calls of the source:
either a value, `WouldBlock`, or a driver error. -/
inductive Nb (ε : Type) (α : Type) where
  | ok (a : α)
  | wouldBlock
  | err (e : ε)
deriving Repr, DecidableEq

/-- Timer error enumeration.  `Disabled` is returned by `cancel` on a
stopped counter; `ConfigurationOutOfRange` models the error of
`set_auto_reload` when the requested reload does not fit the register
(named after the spec's error taxonomy; the enum itself lives outside
the provided sources). -/
inductive TimerError where
  | Disabled
  | ConfigurationOutOfRange
deriving Repr, DecidableEq

/-- Observable state of a general-purpose timer peripheral: the
counter-enable bit, the update-interrupt (rollover) flag, the counter,
the auto-reload register and the prescaler. -/
structure TimState where
  cen : Bool
  uif : Bool
  cnt : Nat
  arr : Nat
  psc : Nat
deriving Repr, DecidableEq

namespace CountDownTimer

/-- Modelled from the spec: `General::is_counter_enabled` is declared
outside the provided sources; it reports the counter-enable bit. -/
def is_counter_enabled (s : TimState) : Bool := s.cen

/-- Modelled from the spec: `General::disable_counter` clears the
counter-enable bit and touches nothing else. -/
def disable_counter (s : TimState) : TimState := { s with cen := false }

/-- Modelled from the spec: `General::enable_counter` sets the
counter-enable bit. -/
def enable_counter (s : TimState) : TimState := { s with cen := true }

/-- Modelled from the spec: `General::reset_counter` zeroes the counter. -/
def reset_counter (s : TimState) : TimState := { s with cnt := 0 }

/-- Modelled from the spec: `General::set_auto_reload` writes the reload
register and "fails with a configuration error if the value cannot be
represented in the register's bit width"; `maxAR` is the largest value
the register of the given timer width can hold. -/
def set_auto_reload (maxAR : Nat) (s : TimState) (a : Nat) : Except TimerError TimState :=
  if a ≤ maxAR then .ok { s with arr := a } else .error .ConfigurationOutOfRange

/-- Modelled from the spec: `General::trigger_update` latches the freshly
written reload value immediately instead of waiting for natural
rollover; it changes none of the observable fields modelled here. -/
def trigger_update (s : TimState) : TimState := s

/-- Modelled from the spec: `General::get_update_interrupt_flag` is
declared outside the provided sources.  Per the spec's `wait` contract
(`WouldBlock` exactly when the update flag is not yet set, `Ok` with a
clear exactly when it is) and the source's `wait`, which returns
`WouldBlock` on the branch where this accessor is `true`, the accessor
reports the update flag being CLEAR. -/
def get_update_interrupt_flag (s : TimState) : Bool := !s.uif

/-- Modelled from the spec: `General::clear_update_interrupt_flag`
clears the update-interrupt flag. -/
def clear_update_interrupt_flag (s : TimState) : TimState := { s with uif := false }

/-- `CountDownTimer::wait` from `timer/count_down.rs`. -/
def wait (s : TimState) : TimState × Nb TimerError Unit :=
  if get_update_interrupt_flag s then
    (s, .wouldBlock)
  else
    (clear_update_interrupt_flag s, .ok ())

/-- `CountDownTimer::cancel` from `timer/count_down.rs`: error leaves the
state untouched. -/
def cancel (s : TimState) : Except TimerError TimState :=
  if !is_counter_enabled s then
    .error .Disabled
  else
    .ok (disable_counter s)

/-- `CountDownTimer::start` from `timer/count_down.rs`.  `ticks` is the
duration in timer ticks (a `u32`); `timeout.ticks() - 1` is `u32`
subtraction, so it is embedded as addition of `2^32 - 1` modulo `2^32`
(release-profile wrapping semantics). -/
def start (maxAR : Nat) (s : TimState) (ticks : Nat) : Except TimerError TimState :=
  match set_auto_reload maxAR (reset_counter (disable_counter s))
      ((ticks % 2 ^ 32 + (2 ^ 32 - 1)) % 2 ^ 32) with
  | .error e => .error e
  | .ok s2 => .ok (enable_counter (trigger_update s2))

end CountDownTimer

/-- Observable state of the Cortex-M system-tick timer: counter-enable,
the reload register, the current-count register and the wrapped
(rollover) flag. -/
structure SystState where
  enabled : Bool
  reload : Nat
  current : Nat
  wrapped : Bool
deriving Repr, DecidableEq

namespace SysCountDownTimer

/-- Modelled from the spec: `SYST::is_counter_enabled` (system-tick
peripheral access, outside the provided sources) reports the enable bit. -/
def is_counter_enabled (s : SystState) : Bool := s.enabled

/-- Modelled from the spec: `SYST::disable_counter` clears the enable
bit and touches nothing else. -/
def disable_counter (s : SystState) : SystState := { s with enabled := false }

/-- `SysCountDownTimer::start` from `timer/count_down.rs`.  `clk` is the
clock frequency in Hz, `ticks` the microsecond duration's tick count
(both `u32`).  `timeout.ticks() * mul - 1` is `u32` arithmetic, embedded
with explicit wrapping; `assert!(rvr < (1 << 24))` aborts the whole call
before any register write, which is embedded as `none`. -/
def start (clk : Nat) (s : SystState) (ticks : Nat) : Option SystState :=
  if (ticks * (clk / 1000000) % 2 ^ 32 + (2 ^ 32 - 1)) % 2 ^ 32 < 2 ^ 24 then
    some { s with
      reload := (ticks * (clk / 1000000) % 2 ^ 32 + (2 ^ 32 - 1)) % 2 ^ 32,
      current := 0, enabled := true }
  else
    none

/-- `SysCountDownTimer::cancel` from `timer/count_down.rs`. -/
def cancel (s : SystState) : Except TimerError SystState :=
  if !is_counter_enabled s then
    .error .Disabled
  else
    .ok (disable_counter s)

end SysCountDownTimer

/-! SPI driver embedding, from `spi.rs` and `spi/hal_02.rs`. -/

/-- `Polarity` from `spi.rs`. -/
inductive Polarity where
  | IdleLow
  | IdleHigh
deriving Repr, DecidableEq

/-- `Phase` from `spi.rs`. -/
inductive Phase where
  | CaptureOnFirstTransition
  | CaptureOnSecondTransition
deriving Repr, DecidableEq

/-- `Mode` from `spi.rs`: clock polarity and phase. -/
structure SpiMode where
  polarity : Polarity
  phase : Phase
deriving Repr, DecidableEq

/-- `Error` from `spi.rs`: the closed SPI error set. -/
inductive SpiError where
  | Overrun
  | ModeFault
  | Crc
deriving Repr, DecidableEq

/-- The fields of the SPI control register CR1 that the driver reads or
writes. -/
structure Cr1 where
  cpha : Bool
  cpol : Bool
  mstr : Bool
  br : Nat
  spe : Bool
  lsbfirst : Bool
  ssi : Bool
  ssm : Bool
  rxonly : Bool
  dff : Bool
  bidioe : Bool
  bidimode : Bool
deriving Repr, DecidableEq

/-- The SPI status-register flags the driver inspects. -/
structure SpiSr where
  ovr : Bool
  modf : Bool
  crcerr : Bool
  rxne : Bool
  txe : Bool
deriving Repr, DecidableEq

/-- Observable state of one SPI peripheral: status flags, the data
register content, and the control register. -/
structure SpiState where
  sr : SpiSr
  dr : Nat
  cr1 : Cr1
deriving Repr, DecidableEq

namespace Spi

/-- Modelled from the spec: reading the SPI data register is a hardware
operation (register map treated as ground truth) that yields the
received byte and clears the receive-ready flag; a read of DR after a
status-register read also clears the overrun flag, which is what the
driver relies on in `check_send`. -/
def read_dr (s : SpiState) : Nat × SpiState :=
  (s.dr, { s with sr := { s.sr with ovr := false, rxne := false } })

/-- Modelled from the spec: rewriting CR1 (the source writes CR1 back
with an identity `modify` after having read SR) clears the mode-fault
flag in hardware. -/
def rewrite_cr1 (s : SpiState) : SpiState :=
  { s with sr := { s.sr with modf := false } }

/-- The source's explicit clear of the CRCERR status bit
(`sr.modify(w.crcerr().clear_bit())` in `check_send`). -/
def clear_crcerr (s : SpiState) : SpiState :=
  { s with sr := { s.sr with crcerr := false } }

/-- `Spi::send_u8` from `spi.rs`: write the byte into the data register. -/
def send_u8 (b : Nat) (s : SpiState) : SpiState :=
  { s with dr := b }

/-- `Spi::check_read` from `spi.rs`: inspect the status register once
and return the first matching outcome. -/
def check_read (s : SpiState) : SpiState × Nb SpiError Nat :=
  if s.sr.ovr then (s, .err .Overrun)
  else if s.sr.modf then (s, .err .ModeFault)
  else if s.sr.crcerr then (s, .err .Crc)
  else if s.sr.rxne then
    let (b, s1) := read_dr s
    (s1, .ok b)
  else (s, .wouldBlock)

/-- `Spi::check_send` from `spi.rs`: inspect the status register once;
error branches perform their register-clearing side effect before the
error is returned. -/
def check_send (b : Nat) (s : SpiState) : SpiState × Nb SpiError Unit :=
  if s.sr.ovr then ((read_dr s).2, .err .Overrun)
  else if s.sr.modf then (rewrite_cr1 s, .err .ModeFault)
  else if s.sr.crcerr then (clear_crcerr s, .err .Crc)
  else if s.sr.txe then (send_u8 b s, .ok ())
  else (s, .wouldBlock)

/-- The baud-rate field computed in `Spi::pre_init` from `spi.rs`: a
`match` on the integer ratio `clock / freq`; ratio `0` hits
`unreachable!()` (a panic), embedded as `none`. -/
def pre_init_br (clock freq : Nat) : Option Nat :=
  let r := clock / freq
  if r = 0 then none
  else some (
    if r ≤ 2 then 0
    else if r ≤ 5 then 1
    else if r ≤ 11 then 2
    else if r ≤ 23 then 3
    else if r ≤ 47 then 4
    else if r ≤ 95 then 5
    else if r ≤ 191 then 6
    else 7)

/-- The CR1 value written by `Spi::pre_init` from `spi.rs` (the svd2rust
`write` starts from the register's reset value, all zeroes, so every
field not mentioned by the closure is written as zero). -/
def pre_init_cr1 (mode : SpiMode) (is_master : Bool) (brv : Nat) : Cr1 :=
  { cpha := decide (mode.phase = .CaptureOnSecondTransition)
    cpol := decide (mode.polarity = .IdleHigh)
    mstr := is_master
    br := brv
    spe := false
    lsbfirst := false
    ssi := is_master
    ssm := true
    rxonly := false
    dff := false
    bidioe := false
    bidimode := false }

/-- `Spi::pre_init` from `spi.rs`, restricted to its CR1 outcome:
compute the baud-rate field from the clocks and write the control
register; a zero clock-to-frequency ratio panics. -/
def pre_init (mode : SpiMode) (freq clock : Nat) (is_master : Bool) : Option Cr1 :=
  (pre_init_br clock freq).map (pre_init_cr1 mode is_master)

/-- `Spi::enable` from `spi.rs`: write the SPE bit. -/
def enable (b : Bool) (c : Cr1) : Cr1 :=
  { c with spe := b }

/-- The `init` of `Spi<_, _, TransferModeNormal, _>` from `spi.rs`:
clear BIDIMODE and BIDIOE, set SPE. -/
def init_normal (c : Cr1) : Cr1 :=
  { c with bidimode := false, bidioe := false, spe := true }

/-- The `init` of `Spi<_, _, TransferModeBidi, _>` from `spi.rs`:
set BIDIMODE and BIDIOE, set SPE. -/
def init_bidi (c : Cr1) : Cr1 :=
  { c with bidimode := true, bidioe := true, spe := true }

/-- `Spi::to_bidi_transfer_mode` from `spi.rs` (CR1 action):
`into_mode` touches no register, then `enable(false)`, then the Bidi
`init`. -/
def to_bidi_transfer_mode (c : Cr1) : Cr1 :=
  init_bidi (enable false c)

/-- `Spi::to_normal_transfer_mode` from `spi.rs` (CR1 action). -/
def to_normal_transfer_mode (c : Cr1) : Cr1 :=
  init_normal (enable false c)

/-- `Spi::to_slave_operation` on a Normal-mode peripheral from `spi.rs`
(CR1 action): `into_operation` touches no register, then
`enable(false)`, then the Normal `init` (which does not touch MSTR). -/
def to_slave_operation (c : Cr1) : Cr1 :=
  init_normal (enable false c)

/-- `Spi::to_master_operation` on a Normal-mode peripheral from
`spi.rs` (CR1 action). -/
def to_master_operation (c : Cr1) : Cr1 :=
  init_normal (enable false c)

end Spi

/-- Modelled from the spec: an idealized fault-free full-duplex SPI
peripheral seen through the blocking helpers.  `line` is the byte the
remote party shifts back for each byte shifted out (loopback wires it
to the identity), `rxQueue` holds received bytes not yet read from the
data register, `txLog` the bytes shifted out in order. -/
structure SpiDevice where
  line : Nat → Nat
  rxQueue : List Nat
  txLog : List Nat

namespace SpiDevice

/-- Modelled from the spec: `nb::block!(send(b))` on the idealized
device.  The transmit flag always rises again, so the blocking send
terminates; in Normal (full-duplex) transfer mode the shift register
operates in lockstep, so one byte is received for each byte sent. -/
def block_send (d : SpiDevice) (b : Nat) : SpiDevice :=
  { d with txLog := d.txLog ++ [b], rxQueue := d.rxQueue ++ [d.line b] }

/-- Modelled from the spec: `nb::block!(send(b))` in Bidirectional
transfer mode — the single wire is driving output only, so nothing is
received. -/
def block_send_bidi (d : SpiDevice) (b : Nat) : SpiDevice :=
  { d with txLog := d.txLog ++ [b] }

/-- Modelled from the spec: `nb::block!(read())` on the idealized
device pops the oldest unread byte; with nothing in flight the poll
loop spins forever (`none`). -/
def block_read (d : SpiDevice) : Option (Nat × SpiDevice) :=
  match d.rxQueue with
  | [] => none
  | r :: rest => some (r, { d with rxQueue := rest })

/-- `Write<u8>::write` for `TransferModeNormal` from `spi/hal_02.rs`:
per word, a blocking send then a blocking read whose byte is discarded. -/
def write_normal (d : SpiDevice) : List Nat → Option SpiDevice
  | [] => some d
  | w :: ws =>
    match block_read (block_send d w) with
    | none => none
    | some (_, d2) => write_normal d2 ws

/-- `Write<u8>::write` for `TransferModeBidi` from `spi/hal_02.rs`:
per word, only a blocking send. -/
def write_bidi (d : SpiDevice) : List Nat → SpiDevice
  | [] => d
  | w :: ws => write_bidi (block_send_bidi d w) ws

/-- `Transfer<u8>::transfer` from `spi/hal_02.rs`: per word, a blocking
send, then a blocking read whose byte overwrites the buffer position in
place. -/
def transfer (d : SpiDevice) : List Nat → Option (SpiDevice × List Nat)
  | [] => some (d, [])
  | w :: ws =>
    match block_read (block_send d w) with
    | none => none
    | some (r, d2) =>
      match transfer d2 ws with
      | none => none
      | some (d3, rs) => some (d3, r :: rs)

end SpiDevice


/-! Theorems -/

/-- C1: for the generic CountDownTimer, `wait` polls the update/rollover
flag: whenever the flag is not set it returns WouldBlock and leaves the
state (hence the flag) unchanged, and whenever the flag is set it clears
the flag and returns Ok, so after one expiry Ok is returned exactly once
and an immediately following `wait` returns WouldBlock. -/
theorem countdown_wait_poll_contract (s : TimState) :
    (s.uif = false → CountDownTimer.wait s = (s, .wouldBlock)) ∧
    (s.uif = true →
      CountDownTimer.wait s = ({ s with uif := false }, .ok ()) ∧
      (CountDownTimer.wait s).1.uif = false ∧
      CountDownTimer.wait (CountDownTimer.wait s).1 =
        ((CountDownTimer.wait s).1, .wouldBlock)) := by
  constructor
  · intro h
    simp [CountDownTimer.wait, CountDownTimer.get_update_interrupt_flag, h]
  · intro h
    simp [CountDownTimer.wait, CountDownTimer.get_update_interrupt_flag,
      CountDownTimer.clear_update_interrupt_flag, h]

/-- Concrete run of `countdown_wait_poll_contract` on a timer whose
update flag is set. -/
theorem countdown_wait_poll_contract_witness :
    CountDownTimer.wait ⟨true, true, 0, 0, 0⟩ =
      ({ (⟨true, true, 0, 0, 0⟩ : TimState) with uif := false }, .ok ()) :=
  ((countdown_wait_poll_contract ⟨true, true, 0, 0, 0⟩).2 rfl).1

/-- C4: for both the generic CountDownTimer and the SysCountDownTimer,
`cancel` fails with Disabled iff the counter is already stopped; on a
running counter it stops the counter, returns Ok, and changes nothing
except the counter-enable bit (all pending flags unchanged). -/
theorem timer_cancel_disabled_iff_stopped (s : TimState) (y : SystState) :
    (CountDownTimer.cancel s = .error .Disabled ↔ s.cen = false) ∧
    (s.cen = true → CountDownTimer.cancel s = .ok { s with cen := false }) ∧
    (SysCountDownTimer.cancel y = .error .Disabled ↔ y.enabled = false) ∧
    (y.enabled = true → SysCountDownTimer.cancel y = .ok { y with enabled := false }) := by
  cases hc : s.cen <;> cases hy : y.enabled <;>
    simp [CountDownTimer.cancel, CountDownTimer.is_counter_enabled,
      CountDownTimer.disable_counter, SysCountDownTimer.cancel,
      SysCountDownTimer.is_counter_enabled, SysCountDownTimer.disable_counter, hc, hy]

/-- Concrete run of `timer_cancel_disabled_iff_stopped`: a running
generic timer cancels to Ok with only the enable bit changed, and a
stopped system-tick timer cancels to Disabled. -/
theorem timer_cancel_disabled_iff_stopped_witness :
    CountDownTimer.cancel ⟨true, true, 5, 7, 9⟩ =
      .ok { (⟨true, true, 5, 7, 9⟩ : TimState) with cen := false } ∧
    SysCountDownTimer.cancel ⟨false, 1, 2, true⟩ = .error .Disabled :=
  ⟨(timer_cancel_disabled_iff_stopped ⟨true, true, 5, 7, 9⟩ ⟨false, 1, 2, true⟩).2.1 rfl,
   (timer_cancel_disabled_iff_stopped ⟨true, true, 5, 7, 9⟩ ⟨false, 1, 2, true⟩).2.2.1.mpr rfl⟩

/-- C10: `start` with a zero-tick duration is not rejected as a
configuration error up front: the generic CountDownTimer computes the
auto-reload value as `0 - 1` in wrapping `u32` arithmetic, giving
`2^32 - 1`, which a 32-bit-wide timer then accepts; and the
SysCountDownTimer similarly underflows whenever `ticks * mul = 0`, in
particular for every duration once the clock is below 1 MHz (the MHz
multiplier is then zero). -/
theorem timer_start_zero_ticks_wraps (s : TimState) (y : SystState) (clk ticks : Nat) :
    CountDownTimer.start (2 ^ 32 - 1) s 0 =
      .ok { s with cen := true, cnt := 0, arr := 2 ^ 32 - 1 } ∧
    (ticks * (clk / 1000000) = 0 →
      SysCountDownTimer.start clk y ticks = none) ∧
    (clk < 1000000 →
      SysCountDownTimer.start clk y ticks = none) := by
  refine ⟨?_, ?_, ?_⟩
  · unfold CountDownTimer.start
    rw [show ((0 : Nat) % 2 ^ 32 + (2 ^ 32 - 1)) % 2 ^ 32 = 2 ^ 32 - 1 from by norm_num]
    unfold CountDownTimer.set_auto_reload
    rw [if_pos (le_refl (2 ^ 32 - 1))]
    rfl
  · intro h
    unfold SysCountDownTimer.start
    rw [h]
    rw [show ((0 : Nat) % 2 ^ 32 + (2 ^ 32 - 1)) % 2 ^ 32 = 2 ^ 32 - 1 from by norm_num]
    rw [if_neg (by norm_num)]
  · intro h
    unfold SysCountDownTimer.start
    rw [Nat.div_eq_of_lt h, Nat.mul_zero]
    rw [show ((0 : Nat) % 2 ^ 32 + (2 ^ 32 - 1)) % 2 ^ 32 = 2 ^ 32 - 1 from by norm_num]
    rw [if_neg (by norm_num)]

/-- Concrete runs of `timer_start_zero_ticks_wraps`: a zero-tick
duration at a 48 MHz clock makes the tick product zero, so the
system-tick `start` aborts, and a 999999 Hz clock makes the MHz
multiplier zero, so it aborts for a 123-tick duration as well. -/
theorem timer_start_zero_ticks_wraps_witness :
    SysCountDownTimer.start 48000000 ⟨false, 0, 0, false⟩ 0 = none ∧
    SysCountDownTimer.start 999999 ⟨false, 0, 0, false⟩ 123 = none :=
  ⟨(timer_start_zero_ticks_wraps ⟨false, false, 0, 0, 0⟩ ⟨false, 0, 0, false⟩
      48000000 0).2.1 (by norm_num),
   (timer_start_zero_ticks_wraps ⟨false, false, 0, 0, 0⟩ ⟨false, 0, 0, false⟩
      999999 123).2.2 (by norm_num)⟩

/-- C8: the SysCountDownTimer `start` computes the reload value from the
duration's ticks and the clock's MHz multiplier; whenever that value
does not fit in 24 bits the whole call fails outright (the assert
aborts) with no register written, and whenever it succeeds the reload
register holds exactly the computed value (no truncation or wrap to the
24-bit width), the current count is cleared and the counter enabled. -/
theorem syst_start_reload_fits_24bit_or_fails (y : SystState) (clk ticks : Nat) :
    (2 ^ 24 ≤ (ticks * (clk / 1000000) % 2 ^ 32 + (2 ^ 32 - 1)) % 2 ^ 32 →
      SysCountDownTimer.start clk y ticks = none) ∧
    (∀ y', SysCountDownTimer.start clk y ticks = some y' →
      (ticks * (clk / 1000000) % 2 ^ 32 + (2 ^ 32 - 1)) % 2 ^ 32 < 2 ^ 24 ∧
      y' = { y with
        reload := (ticks * (clk / 1000000) % 2 ^ 32 + (2 ^ 32 - 1)) % 2 ^ 32,
        current := 0,
        enabled := true }) := by
  constructor
  · intro h
    unfold SysCountDownTimer.start
    rw [if_neg (Nat.not_lt.mpr h)]
  · intro y' h
    unfold SysCountDownTimer.start at h
    split at h
    · exact ⟨by assumption, (Option.some_inj.mp h).symm⟩
    · exact Option.noConfusion h

/-- Concrete run of `syst_start_reload_fits_24bit_or_fails`: with a
100 MHz clock a 200000 microsecond-tick duration needs reload
19999999 ≥ 2^24, so `start` aborts. -/
theorem syst_start_reload_fits_24bit_or_fails_witness :
    SysCountDownTimer.start 100000000 ⟨false, 0, 0, false⟩ 200000 = none :=
  (syst_start_reload_fits_24bit_or_fails ⟨false, 0, 0, false⟩ 100000000 200000).1
    (by norm_num)

/-- C5: for every SpiMode and master/slave role, the CR1 value written
by `pre_init` has CPHA set iff the phase is CaptureOnSecondTransition,
CPOL set iff the polarity is IdleHigh, MSTR set iff the master role was
requested, SSM always set, DFF cleared (8-bit frames), and SSI equal to
the master/slave role bit. -/
theorem spi_pre_init_cr1_bits (mode : SpiMode) (m : Bool) (brv : Nat) :
    ((Spi.pre_init_cr1 mode m brv).cpha = true ↔ mode.phase = .CaptureOnSecondTransition) ∧
    ((Spi.pre_init_cr1 mode m brv).cpol = true ↔ mode.polarity = .IdleHigh) ∧
    ((Spi.pre_init_cr1 mode m brv).mstr = true ↔ m = true) ∧
    (Spi.pre_init_cr1 mode m brv).ssm = true ∧
    (Spi.pre_init_cr1 mode m brv).dff = false ∧
    (Spi.pre_init_cr1 mode m brv).ssi = m := by
  simp [Spi.pre_init_cr1]

/-- C3: `check_read` and `check_send` inspect the status flags in the
fixed priority order Overrun, ModeFault, Crc, data-ready/transmit-ready,
else WouldBlock, returning the first matching outcome; on send the
Overrun branch reads the data register (discarding the byte), which
clears the flag, before the error is returned, the Crc branch clears the
CRCERR status bit, and the ModeFault branch rewrites the control
register clearing the flag, each at detection time. -/
theorem spi_check_priority_and_clears (s : SpiState) (b : Nat) :
    (s.sr.ovr = true →
      Spi.check_read s = (s, .err .Overrun) ∧
      Spi.check_send b s = ((Spi.read_dr s).2, .err .Overrun) ∧
      (Spi.check_send b s).1.sr.ovr = false) ∧
    (s.sr.ovr = false → s.sr.modf = true →
      Spi.check_read s = (s, .err .ModeFault) ∧
      Spi.check_send b s = (Spi.rewrite_cr1 s, .err .ModeFault) ∧
      (Spi.check_send b s).1.sr.modf = false) ∧
    (s.sr.ovr = false → s.sr.modf = false → s.sr.crcerr = true →
      Spi.check_read s = (s, .err .Crc) ∧
      Spi.check_send b s = (Spi.clear_crcerr s, .err .Crc) ∧
      (Spi.check_send b s).1.sr.crcerr = false) ∧
    (s.sr.ovr = false → s.sr.modf = false → s.sr.crcerr = false →
      (s.sr.rxne = true → Spi.check_read s = ((Spi.read_dr s).2, .ok s.dr)) ∧
      (s.sr.rxne = false → Spi.check_read s = (s, .wouldBlock)) ∧
      (s.sr.txe = true → Spi.check_send b s = (Spi.send_u8 b s, .ok ())) ∧
      (s.sr.txe = false → Spi.check_send b s = (s, .wouldBlock))) := by
  refine ⟨?_, ?_, ?_, ?_⟩ <;> intros <;>
    simp_all [Spi.check_read, Spi.check_send, Spi.read_dr, Spi.rewrite_cr1,
      Spi.clear_crcerr, Spi.send_u8]

/-- Concrete run of `spi_check_priority_and_clears` on a state with the
overrun flag raised: send reads the data register and reports Overrun
with the flag now clear. -/
theorem spi_check_priority_and_clears_witness :
    Spi.check_send 42 ⟨⟨true, true, true, true, true⟩, 7, Spi.pre_init_cr1 ⟨.IdleLow, .CaptureOnFirstTransition⟩ true 0⟩ =
      ((Spi.read_dr ⟨⟨true, true, true, true, true⟩, 7, Spi.pre_init_cr1 ⟨.IdleLow, .CaptureOnFirstTransition⟩ true 0⟩).2,
        .err .Overrun) :=
  ((spi_check_priority_and_clears
    ⟨⟨true, true, true, true, true⟩, 7, Spi.pre_init_cr1 ⟨.IdleLow, .CaptureOnFirstTransition⟩ true 0⟩ 42).1 rfl).2.1

/-- C9: from the control-register state of an enabled Normal-mode SPI
peripheral (SPE set, BIDIMODE and BIDIOE clear, as every Normal-mode
`init` leaves them), the round trips to_bidi_transfer_mode then
to_normal_transfer_mode and to_slave_operation then to_master_operation
restore the original bit pattern; during each transition the peripheral
is first disabled (`enable false` clears SPE) and each transition ends
re-enabled. -/
theorem spi_mode_transition_round_trip (c : Cr1) (hspe : c.spe = true)
    (hbm : c.bidimode = false) (hbo : c.bidioe = false) :
    Spi.to_normal_transfer_mode (Spi.to_bidi_transfer_mode c) = c ∧
    Spi.to_master_operation (Spi.to_slave_operation c) = c ∧
    (Spi.enable false c).spe = false ∧
    (Spi.to_bidi_transfer_mode c).spe = true ∧
    (Spi.enable false (Spi.to_bidi_transfer_mode c)).spe = false ∧
    (Spi.to_slave_operation c).spe = true ∧
    (Spi.enable false (Spi.to_slave_operation c)).spe = false ∧
    (Spi.to_normal_transfer_mode (Spi.to_bidi_transfer_mode c)).spe = true := by
  cases c
  simp_all [Spi.to_normal_transfer_mode, Spi.to_bidi_transfer_mode,
    Spi.to_slave_operation, Spi.to_master_operation, Spi.init_normal,
    Spi.init_bidi, Spi.enable]

/-- Concrete run of `spi_mode_transition_round_trip` on an enabled
Normal-mode CR1 value. -/
theorem spi_mode_transition_round_trip_witness :
    Spi.to_normal_transfer_mode (Spi.to_bidi_transfer_mode
      ⟨true, false, true, 3, true, false, true, true, false, false, false, false⟩) =
      ⟨true, false, true, 3, true, false, true, true, false, false, false, false⟩ :=
  (spi_mode_transition_round_trip
    ⟨true, false, true, 3, true, false, true, true, false, false, false, false⟩
    rfl rfl rfl).1

/-- C2 counterexample: with peripheral clock 10 and requested frequency
4 the ratio is 2, so the code chooses br = 0 (prescaler 2), yet
10 / 2 = 5 > 4: the achieved frequency exceeds the request both under
integer division and under exact division (10 > 4 * 2), so the chosen
prescaler does not satisfy c / p ≤ f (the power of two that does, 4, is
not chosen). -/
theorem spi_prescaler_bound_cex :
    Spi.pre_init_br 10 4 = some 0 ∧
    ¬ 10 / 2 ^ (0 + 1) ≤ 4 ∧
    ¬ (10 : Nat) ≤ 4 * 2 ^ (0 + 1) ∧
    10 / 2 ^ (1 + 1) ≤ 4 := by decide

/-- C2 amended: for every positive integer ratio r = c / f, the chosen
baud-rate field br (prescaler p = 2^(br+1)) is the smallest power-of-two
divisor in 2..256 with 2*r < 3*p, i.e. the power of two nearest to the
ratio with ties rounded up (which bounds the achieved frequency by
(3/2)*f rather than by f), and the prescaler saturates to br = 7 exactly
when the ratio is at least 192. -/
theorem spi_prescaler_nearest_pow2 (clock freq : Nat) (h : 1 ≤ clock / freq) :
    ∃ brv, Spi.pre_init_br clock freq = some brv ∧ brv ≤ 7 ∧
      (brv = 7 ∨ 2 * (clock / freq) < 3 * 2 ^ (brv + 1)) ∧
      (∀ k, k < brv → 3 * 2 ^ (k + 1) ≤ 2 * (clock / freq)) ∧
      (192 ≤ clock / freq ↔ brv = 7) := by
  simp only [Spi.pre_init_br]
  generalize clock / freq = r at h ⊢
  split_ifs with h0 h1 h2 h3 h4 h5 h6 h7
  · exact absurd h0 (by omega)
  · exact ⟨0, rfl, by norm_num, .inr (by omega), fun k hk => absurd hk (by omega),
      by omega⟩
  · refine ⟨1, rfl, by norm_num, .inr (by omega), ?_, by omega⟩
    intro k hk; interval_cases k; omega
  · refine ⟨2, rfl, by norm_num, .inr (by omega), ?_, by omega⟩
    intro k hk; interval_cases k <;> omega
  · refine ⟨3, rfl, by norm_num, .inr (by omega), ?_, by omega⟩
    intro k hk; interval_cases k <;> omega
  · refine ⟨4, rfl, by norm_num, .inr (by omega), ?_, by omega⟩
    intro k hk; interval_cases k <;> omega
  · refine ⟨5, rfl, by norm_num, .inr (by omega), ?_, by omega⟩
    intro k hk; interval_cases k <;> omega
  · refine ⟨6, rfl, by norm_num, .inr (by omega), ?_, by omega⟩
    intro k hk; interval_cases k <;> omega
  · refine ⟨7, rfl, by norm_num, .inl rfl, ?_, by omega⟩
    intro k hk; interval_cases k <;> omega

/-- Concrete run of `spi_prescaler_nearest_pow2` at ratio 10 (clock 10,
frequency 1). -/
theorem spi_prescaler_nearest_pow2_witness :
    ∃ brv, Spi.pre_init_br 10 1 = some brv ∧ brv ≤ 7 ∧
      (brv = 7 ∨ 2 * (10 / 1) < 3 * 2 ^ (brv + 1)) ∧
      (∀ k, k < brv → 3 * 2 ^ (k + 1) ≤ 2 * (10 / 1)) ∧
      (192 ≤ 10 / 1 ↔ brv = 7) :=
  spi_prescaler_nearest_pow2 10 1 (by norm_num)

/-- Helper: a blocking-send/blocking-discarding-read loop starting with
an empty receive queue terminates, appends exactly the written words to
the transmit log, and ends with the receive queue empty again. -/
theorem write_normal_run (words : List Nat) : ∀ d : SpiDevice, d.rxQueue = [] →
    SpiDevice.write_normal d words =
      some { d with txLog := d.txLog ++ words, rxQueue := [] } := by
  induction words with
  | nil =>
      intro d h
      cases d
      simp_all [SpiDevice.write_normal]
  | cons w ws ih =>
      intro d h
      simp only [SpiDevice.write_normal, SpiDevice.block_send, h, List.nil_append,
        SpiDevice.block_read]
      rw [ih _ rfl]
      simp

/-- Helper: the Bidi write loop appends exactly the written words to the
transmit log and touches nothing else. -/
theorem write_bidi_run (words : List Nat) : ∀ d : SpiDevice,
    SpiDevice.write_bidi d words = { d with txLog := d.txLog ++ words } := by
  induction words with
  | nil =>
      intro d
      cases d
      simp [SpiDevice.write_bidi]
  | cons w ws ih =>
      intro d
      simp only [SpiDevice.write_bidi, SpiDevice.block_send_bidi]
      rw [ih]
      simp

/-- Helper: the full-duplex transfer loop starting with an empty receive
queue terminates, sends the words in order, and collects the line's
response to each word in order. -/
theorem transfer_run (words : List Nat) : ∀ d : SpiDevice, d.rxQueue = [] →
    SpiDevice.transfer d words =
      some ({ d with txLog := d.txLog ++ words, rxQueue := [] }, words.map d.line) := by
  induction words with
  | nil =>
      intro d h
      cases d
      simp_all [SpiDevice.transfer]
  | cons w ws ih =>
      intro d h
      simp only [SpiDevice.transfer, SpiDevice.block_send, h, List.nil_append,
        SpiDevice.block_read]
      rw [ih _ rfl]
      simp

/-- C6: on the idealized fault-free device with nothing pending in the
receive path, `write` in Normal transfer mode performs a blocking send
followed by a blocking discarded read per byte, so it terminates with
the bytes sent in order and the receive path drained (a subsequent read
before a new send blocks); `write` in Bidirectional transfer mode
performs only the blocking send per byte. -/
theorem spi_write_drains_receive_path (d : SpiDevice) (words : List Nat)
    (h : d.rxQueue = []) :
    SpiDevice.write_normal d words =
      some { d with txLog := d.txLog ++ words, rxQueue := [] } ∧
    SpiDevice.block_read { d with txLog := d.txLog ++ words, rxQueue := [] } = none ∧
    SpiDevice.write_bidi d words = { d with txLog := d.txLog ++ words } :=
  ⟨write_normal_run words d h, rfl, write_bidi_run words d⟩

/-- Concrete run of `spi_write_drains_receive_path`. -/
theorem spi_write_drains_receive_path_witness :
    SpiDevice.write_normal ⟨fun x => x + 1, [], []⟩ [1, 2, 3] =
      some { line := fun x => x + 1, rxQueue := [], txLog := [1, 2, 3] } :=
  (spi_write_drains_receive_path ⟨fun x => x + 1, [], []⟩ [1, 2, 3] rfl).1

/-- C7: on the idealized device with nothing pending in the receive
path, `transfer` processes the buffer in original order (for each
position a blocking send then a blocking receive overwriting the
position in place), the resulting buffer is the pointwise line response
and so has the original length, and with a loopback line (each received
byte equals the byte just sent) the buffer comes back unchanged. -/
theorem spi_transfer_loopback_echo (d : SpiDevice) (words : List Nat)
    (h : d.rxQueue = []) :
    SpiDevice.transfer d words =
      some ({ d with txLog := d.txLog ++ words, rxQueue := [] }, words.map d.line) ∧
    (words.map d.line).length = words.length ∧
    ((∀ x, d.line x = x) →
      SpiDevice.transfer d words =
        some ({ d with txLog := d.txLog ++ words, rxQueue := [] }, words)) := by
  refine ⟨transfer_run words d h, by simp, fun hl => ?_⟩
  rw [transfer_run words d h, show d.line = id from funext hl, List.map_id]

/-- Concrete run of `spi_transfer_loopback_echo` on a loopback device. -/
theorem spi_transfer_loopback_echo_witness :
    SpiDevice.transfer ⟨fun x => x, [], []⟩ [5, 6] =
      some ({ line := fun x => x, rxQueue := [], txLog := [5, 6] }, [5, 6]) :=
  (spi_transfer_loopback_echo ⟨fun x => x, [], []⟩ [5, 6] rfl).2.2 (fun _ => rfl)
